import Mathlib

/-
  Verification development for the call-tree observer and renderer of the
  dispatch run command (src/cli/tui.go).

  The Go code is shallowly embedded:
    - time.Time instants are integers (nanoseconds); the Go zero time is 0,
      and t.IsZero() is (t = 0).  time.Duration values are integers.
    - sdkv1.Status is an open protobuf enum, modelled as Int with named
      constants (unrecognized codes are arbitrary integers).
    - Go maps are association lists; a nil map is Option.none (reading a nil
      map yields zero values, assigning into a nil map panics).
    - A function that can panic returns an Option, with none for the panic.
    - lipgloss styles render as ANSI-like escape sequences, and
      ansi.PrintableRuneWidth skips characters between ESC and a terminator.
-/

namespace Dispatch

abbrev DispatchID := String

abbrev Time := Int

/-- Go time.Duration constant time.Millisecond, in nanoseconds. -/
def millisecond : Int := 1000000

/-- Go Duration.Truncate(time.Millisecond): rounds toward zero to a multiple
of a millisecond; Int.tmod is the Go (truncated) remainder. -/
def truncMs (d : Int) : Int := d - Int.tmod d millisecond

/-- sdkv1.Status: an open protobuf enum (int32 on the wire). -/
abbrev Status := Int

def STATUS_UNSPECIFIED : Status := 0
def STATUS_OK : Status := 1
def STATUS_TIMEOUT : Status := 2
def STATUS_THROTTLED : Status := 3
def STATUS_INVALID_ARGUMENT : Status := 4
def STATUS_INVALID_RESPONSE : Status := 5
def STATUS_TEMPORARY_ERROR : Status := 6
def STATUS_PERMANENT_ERROR : Status := 7
def STATUS_INCOMPATIBLE_STATE : Status := 8
def STATUS_DNS_ERROR : Status := 9
def STATUS_TCP_ERROR : Status := 10
def STATUS_TLS_ERROR : Status := 11
def STATUS_HTTP_ERROR : Status := 12
def STATUS_UNAUTHENTICATED : Status := 13
def STATUS_PERMISSION_DENIED : Status := 14
def STATUS_NOT_FOUND : Status := 15

/-- tui.go terminalStatus: the switch lists the non-terminal codes and
returns true in the default case. -/
def terminalStatus (status : Status) : Bool :=
  if status = STATUS_TIMEOUT ∨ status = STATUS_THROTTLED ∨
     status = STATUS_TEMPORARY_ERROR ∨ status = STATUS_INCOMPATIBLE_STATE ∨
     status = STATUS_DNS_ERROR ∨ status = STATUS_TCP_ERROR ∨
     status = STATUS_TLS_ERROR ∨ status = STATUS_HTTP_ERROR
  then false else true

/-- tui.go terminalHTTPStatusCode: switches on code/100 (Go integer division
truncates toward zero, which is Int.tdiv). -/
def terminalHTTPStatusCode (code : Int) : Bool :=
  if Int.tdiv code 100 = 4 then
    decide (¬(code = 408 ∨ code = 429))
  else if Int.tdiv code 100 = 5 then
    decide (code = 501)
  else true

/-- tui.go node struct.  The Go children field is a set (map to struct list);
it is modelled as the list of members in insertion order. -/
structure Node where
  function : String := ""
  failures : Nat := 0
  responses : Nat := 0
  status : Status := 0
  error : Option String := none
  running : Bool := false
  done : Bool := false
  creationTime : Time := 0
  expirationTime : Time := 0
  doneTime : Time := 0
  children : List DispatchID := []
  orderedChildren : List DispatchID := []
deriving Repr, DecidableEq

/-- sdkv1.RunRequest, restricted to the fields tui.go reads.  A present
protobuf timestamp converts to an instant (possibly the zero instant). -/
structure RunRequest where
  rootDispatchId : String := ""
  parentDispatchId : String := ""
  dispatchId : String := ""
  function : String := ""
  creationTime : Option Time := none
  expirationTime : Option Time := none
deriving Repr, DecidableEq

structure TailCall where
  function : String := ""
deriving Repr, DecidableEq

/-- sdkv1.Error inside an Exit result. -/
structure ExitError where
  type : String := ""
  message : String := ""
deriving Repr, DecidableEq

structure ExitResult where
  error : Option ExitError := none
deriving Repr, DecidableEq

structure ExitDirective where
  tailCall : Option TailCall := none
  result : Option ExitResult := none
deriving Repr, DecidableEq

/-- The RunResponse directive oneof; missing is a nil directive. -/
inductive Directive where
  | missing : Directive
  | exit : ExitDirective → Directive
  | poll : Directive
deriving Repr, DecidableEq

structure RunResponse where
  status : Status := 0
  directive : Directive := .missing
deriving Repr, DecidableEq

/-- Association list standing for the Go map DispatchID to node. -/
abbrev NodeMap := List (DispatchID × Node)

def NodeMap.find? : NodeMap → DispatchID → Option Node
  | [], _ => none
  | (k, v) :: rest, key => if k = key then some v else NodeMap.find? rest key

/-- Go map read without the comma-ok form: a missing key yields the zero node. -/
def NodeMap.get (m : NodeMap) (key : DispatchID) : Node :=
  (m.find? key).getD {}

def NodeMap.contains (m : NodeMap) (key : DispatchID) : Bool :=
  (m.find? key).isSome

def NodeMap.insert : NodeMap → DispatchID → Node → NodeMap
  | [], key, v => [(key, v)]
  | (k, v') :: rest, key, v =>
      if k = key then (key, v) :: rest else (k, v') :: NodeMap.insert rest key v

/-- The store part of the TUI struct: the roots set, the ordered root
registry, and the node map.  The two maps start out nil (Option.none). -/
structure TUIState where
  roots : Option (List DispatchID) := none
  orderedRoots : List DispatchID := []
  nodes : Option NodeMap := none
deriving Repr, DecidableEq

def TUIState.getNode (s : TUIState) (key : DispatchID) : Node :=
  (s.nodes.getD []).get key

/-- ObserveRequest, first block: nil-map initialization and the root upsert
(tui.go lines 264-284). -/
def upsertRoot (s : TUIState) (rootID : DispatchID) : TUIState :=
  let rootsSet := s.roots.getD []
  let nodes := s.nodes.getD []
  { roots := some (if rootsSet.contains rootID then rootsSet
                   else rootsSet ++ [rootID]),
    orderedRoots := if rootsSet.contains rootID then s.orderedRoots
                    else s.orderedRoots ++ [rootID],
    nodes := some (nodes.insert rootID (nodes.get rootID)) }

/-- The node transition of the node upsert (tui.go lines 288-301): set
function and running, overwrite carried times, default creationTime to now
when still zero. -/
def requestNode (n : Node) (req : RunRequest) (now : Time) : Node :=
  let n := { n with function := req.function, running := true }
  let n : Node := match req.creationTime with
           | some t => { n with creationTime := t }
           | none => n
  let n := if n.creationTime = 0 then { n with creationTime := now } else n
  match req.expirationTime with
  | some t => { n with expirationTime := t }
  | none => n

/-- ObserveRequest, second block: the node upsert (tui.go lines 286-302).
Expects the maps initialized (callers reach it through upsertRoot). -/
def upsertNode (s : TUIState) (req : RunRequest) (now : Time) : TUIState :=
  let nodes := s.nodes.getD []
  { s with nodes := some (nodes.insert req.dispatchId
      (requestNode (nodes.get req.dispatchId) req now)) }

/-- The child-link step on the parent node (tui.go lines 313-319): append id
to the ordered child list only when it is not yet in the child set. -/
def linkedParent (parent : Node) (id : DispatchID) : Node :=
  if parent.children.contains id then parent
  else { parent with children := parent.children ++ [id],
                     orderedChildren := parent.orderedChildren ++ [id] }

/-- ObserveRequest, third block: the parent upsert and child link (tui.go
lines 304-321).  The none result is the panic("not implemented"). -/
def linkParent (s : TUIState) (rootID parentID id : DispatchID) :
    Option TUIState :=
  if parentID = "" then some s
  else
    let nodes := s.nodes.getD []
    if nodes.contains parentID = true ∨ parentID = rootID then
      some { s with
             nodes := some (nodes.insert parentID
               (linkedParent (nodes.get parentID) id)) }
    else none

/-- tui.go ObserveRequest. -/
def observeRequest (s : TUIState) (req : RunRequest) (now : Time) :
    Option TUIState :=
  linkParent (upsertNode (upsertRoot s req.rootDispatchId) req now)
    req.rootDispatchId req.parentDispatchId req.dispatchId

/-- The node transition performed by ObserveResponse (tui.go lines 332-379),
on the node looked up for the response id. -/
def runResponseNode (n : Node) (err : Option String) (httpRes : Option Int)
    (res : Option RunResponse) (now : Time) : Node :=
  let n := { n with responses := n.responses + 1, error := none,
                    status := 0, running := false }
  let n :=
    match res with
    | some r =>
        let n :=
          if r.status = STATUS_OK then n
          else if r.status = STATUS_INCOMPATIBLE_STATE then
            ({ function := n.function } : Node)
          else { n with failures := n.failures + 1 }
        match r.directive with
        | .exit d =>
            let n := { n with status := r.status,
                              done := terminalStatus r.status }
            match d.tailCall with
            | some tc => ({ function := tc.function } : Node)
            | none =>
                if r.status ≠ STATUS_OK then
                  match d.result with
                  | some result =>
                      match result.error with
                      | some e =>
                          if e.type ≠ "" then
                            if e.message = "" then { n with error := some e.type }
                            else { n with error := some (e.type ++ ": " ++ e.message) }
                          else n
                      | none => n
                  | none => n
                else n
        | .poll => n
        | .missing => n
    | none =>
        match httpRes with
        | some code =>
            { n with failures := n.failures + 1,
                     error := some ("unexpected HTTP status code " ++ toString code),
                     done := terminalHTTPStatusCode code }
        | none =>
            match err with
            | some e => { n with failures := n.failures + 1, error := some e }
            | none => n
  if n.done ∧ n.doneTime = 0 then { n with doneTime := now } else n

/-- tui.go ObserveResponse.  Reading a nil node map yields the zero node, but
the final store into a nil map panics (Option.none). -/
def observeResponse (s : TUIState) (req : RunRequest) (err : Option String)
    (httpRes : Option Int) (res : Option RunResponse) (now : Time) :
    Option TUIState :=
  let id := req.dispatchId
  let n := (s.nodes.getD []).get id
  let n := runResponseNode n err httpRes res now
  match s.nodes with
  | none => none
  | some m => some { s with nodes := some (m.insert id n) }

/-- The lipgloss styles used by tui.go, by role. -/
inductive StyleTag where
  | logoStyle | logoUnderscoreStyle | statusStyle | tableHeaderStyle
  | pendingStyle | retryStyle | errorStyle | okStyle
  | spinnerStyle | treeStyle
deriving Repr, DecidableEq

/-- A distinct ANSI color parameter per style, mirroring the distinct
foreground colors tui.go assigns. -/
def StyleTag.code : StyleTag → String
  | .logoStyle => "37"
  | .logoUnderscoreStyle => "32"
  | .statusStyle => "90"
  | .tableHeaderStyle => "97"
  | .pendingStyle => "90"
  | .retryStyle => "33"
  | .errorStyle => "31"
  | .okStyle => "32"
  | .spinnerStyle => "90"
  | .treeStyle => "90"

/-- lipgloss Style.Render: wrap the text in an ANSI escape sequence and a
trailing reset. -/
def renderStyled (st : StyleTag) (s : String) : String :=
  "\x1b[" ++ st.code ++ "m" ++ s ++ "\x1b[0m"

/-- muesli reflow ansi.PrintableRuneWidth: counts runes outside ANSI escape
sequences (from the ESC marker to a terminator in 0x40-0x7e); the box-drawing
runes used here all have display width one. -/
def printableRuneWidth (s : String) : Nat :=
  (s.toList.foldl
    (fun (acc : Bool × Nat) c =>
      if c = '\x1b' then (true, acc.2)
      else if acc.1 then
        (!(0x40 ≤ c.toNat ∧ c.toNat ≤ 0x7e), acc.2)
      else (false, acc.2 + 1))
    (false, 0)).2

/-- Name of a defined status code, used by the protobuf String method. -/
def protoStatusName (status : Status) : String :=
  if status = 0 then "STATUS_UNSPECIFIED"
  else if status = 1 then "STATUS_OK"
  else if status = 2 then "STATUS_TIMEOUT"
  else if status = 3 then "STATUS_THROTTLED"
  else if status = 4 then "STATUS_INVALID_ARGUMENT"
  else if status = 5 then "STATUS_INVALID_RESPONSE"
  else if status = 6 then "STATUS_TEMPORARY_ERROR"
  else if status = 7 then "STATUS_PERMANENT_ERROR"
  else if status = 8 then "STATUS_INCOMPATIBLE_STATE"
  else if status = 9 then "STATUS_DNS_ERROR"
  else if status = 10 then "STATUS_TCP_ERROR"
  else if status = 11 then "STATUS_TLS_ERROR"
  else if status = 12 then "STATUS_HTTP_ERROR"
  else if status = 13 then "STATUS_UNAUTHENTICATED"
  else if status = 14 then "STATUS_PERMISSION_DENIED"
  else if status = 15 then "STATUS_NOT_FOUND"
  else toString status

/-- tui.go statusString: the switch over recognized codes; the default case
falls back to the protobuf String method. -/
def statusString (status : Status) : String :=
  if status = STATUS_OK then "OK"
  else if status = STATUS_TIMEOUT then "Timeout"
  else if status = STATUS_THROTTLED then "Throttled"
  else if status = STATUS_INVALID_ARGUMENT then "Invalid response"
  else if status = STATUS_TEMPORARY_ERROR then "Temporary error"
  else if status = STATUS_PERMANENT_ERROR then "Permanent error"
  else if status = STATUS_INCOMPATIBLE_STATE then "Incompatible state"
  else if status = STATUS_DNS_ERROR then "DNS error"
  else if status = STATUS_TCP_ERROR then "TCP error"
  else if status = STATUS_TLS_ERROR then "TLS error"
  else if status = STATUS_HTTP_ERROR then "HTTP error"
  else if status = STATUS_UNAUTHENTICATED then "Unauthenticated"
  else if status = STATUS_PERMISSION_DENIED then "Permission denied"
  else if status = STATUS_NOT_FOUND then "Not found"
  else protoStatusName status

/-- The tree-prefix glyph for one ancestor level (tui.go lines 528-545):
isFinal is the i = len(isLast)-1 case. -/
def treeGlyph (isFinal last : Bool) : String :=
  if isFinal then (if last then "└─" else "├─")
  else (if last then "  " else "│ ")

/-- The full tree prefix: one styled glyph plus a space per ancestor level. -/
def treePfx : List Bool → String
  | [] => ""
  | [last] => renderStyled .treeStyle (treeGlyph true last) ++ " "
  | last :: rest => renderStyled .treeStyle (treeGlyph false last) ++ " " ++ treePfx rest

/-- Style selection and the locally-expired judgment (tui.go lines 547-567):
returns the possibly adjusted local node copy, the chosen style, and the
pending flag. -/
def judgeNode (now : Time) (n : Node) : Node × StyleTag × Bool :=
  if n.done then
    (n, (if n.status = STATUS_OK then .okStyle else .errorStyle), false)
  else if n.expirationTime ≠ 0 ∧ n.expirationTime < now then
    ({ n with error := some "Expired", done := true,
              doneTime := n.expirationTime }, .errorStyle, false)
  else
    (n, (if n.failures > 0 then .retryStyle else .pendingStyle), true)

/-- Status text and final status style (tui.go lines 576-591). -/
def rowStatus (n : Node) (style : StyleTag) (pending : Bool) :
    String × StyleTag :=
  if n.running then ("Running", .pendingStyle)
  else match n.error with
    | some e => (e, style)
    | none =>
        if n.status ≠ STATUS_UNSPECIFIED then (statusString n.status, style)
        else if pending ∧ n.responses > 0 then ("Suspended", .pendingStyle)
        else ("Pending", style)

/-- Attempt counting (tui.go lines 598-606), on the judged local node. -/
def rowAttempts (n : Node) : Nat :=
  let attempts := n.failures
  let attempts :=
    if n.running then attempts + 1
    else if n.done ∧ n.status = STATUS_OK then attempts + 1
    else if n.responses > n.failures then attempts + 1
    else attempts
  max attempts 1

/-- Elapsed duration (tui.go lines 608-617), on the judged local node. -/
def rowElapsed (now : Time) (n : Node) : Int :=
  if n.creationTime ≠ 0 then
    let tail := if ¬n.done then now else n.doneTime
    truncMs (tail - n.creationTime)
  else 0

structure Row where
  spinner : String
  attempts : Nat
  elapsed : Int
  function : String
  status : String
deriving Repr, DecidableEq

/-- One table row for one node (the non-recursive part of tui.go buildRows);
sp is the current spinner frame. -/
def buildRow (sp : String) (now : Time) (n0 : Node) (isLast : List Bool) :
    Row :=
  let (n, style, pending) := judgeNode now n0
  let functionStr := treePfx isLast ++
    (if n.function ≠ "" then renderStyled style n.function
     else renderStyled style "(?)")
  let st := rowStatus n style pending
  { spinner := if pending then renderStyled .spinnerStyle sp else "",
    attempts := rowAttempts n,
    elapsed := rowElapsed now n,
    function := functionStr,
    status := renderStyled st.2 st.1 }

/-- Expands an ordered child list into traversal tasks carrying the per-child
last flag (the i = len-1 test of tui.go line 623). -/
def childTasks (isLast : List Bool) : List DispatchID → List (DispatchID × List Bool)
  | [] => []
  | [c] => [(c, isLast ++ [true])]
  | c :: c2 :: rest => (c, isLast ++ [false]) :: childTasks isLast (c2 :: rest)

/-- tui.go buildRows: depth-first traversal, threading the store state (Go
mutates only the local node copy, never the store).  fuel bounds the
traversal depth (the Go recursion does not terminate on a cyclic store). -/
def buildRowsGo (sp : String) (now : Time) :
    Nat → TUIState → List (DispatchID × List Bool) → TUIState × List Row
  | _, s, [] => (s, [])
  | 0, s, _ => (s, [])
  | Nat.succ fuel, s, (id, isLast) :: work =>
      let n := (s.nodes.getD []).get id
      let r := buildRow sp now n isLast
      let rec1 := buildRowsGo sp now fuel s (childTasks isLast n.orderedChildren ++ work)
      (rec1.1, r :: rec1.2)

def whitespace (width : Nat) : String :=
  String.mk (List.replicate width ' ')

/-- Go padding(width, s) = width - PrintableRuneWidth(s); only evaluated on
the branch where it is nonnegative, so Nat subtraction coincides. -/
def padding (width : Nat) (s : String) : Nat :=
  width - printableRuneWidth s

/-- The loop of tui.go truncate: drop trailing characters until the printable
width fits; fuel s.length suffices since every step shortens s. -/
def truncateAux (width : Nat) : Nat → String → Bool → String
  | 0, s, tr => if tr then s ++ "\x1b[0m" else s
  | Nat.succ fuel, s, tr =>
      if printableRuneWidth s > width then
        truncateAux width fuel (s.dropRight 1) true
      else if tr then s ++ "\x1b[0m" else s

def truncate (width : Nat) (s : String) : String :=
  truncateAux width s.length s false

def right (width : Nat) (s : String) : String :=
  if printableRuneWidth s > width then truncate (width - 3) s ++ "..."
  else whitespace (padding width s) ++ s

def left (width : Nat) (s : String) : String :=
  if printableRuneWidth s > width then truncate (width - 3) s ++ "..."
  else s ++ whitespace (padding width s)

/-- Go time.Duration String method, abbreviated to the nanosecond count (the
exact display text of durations is not the subject of any claim). -/
def durationString (d : Int) : String := toString d ++ "ns"

def tableHeaderView (functionColumnWidth : Nat) : String :=
  whitespace 2 ++
  left functionColumnWidth (renderStyled .tableHeaderStyle "Function") ++ " " ++
  right 8 (renderStyled .tableHeaderStyle "Attempts") ++ " " ++
  right 10 (renderStyled .tableHeaderStyle "Duration") ++ " " ++
  left 40 (renderStyled .tableHeaderStyle "Status") ++ "\n"

def tableRowView (r : Row) (functionColumnWidth : Nat) : String :=
  let attemptsStr := toString r.attempts
  let elapsedStr := if r.elapsed > 0 then durationString r.elapsed else "?"
  left 2 r.spinner ++
  left functionColumnWidth r.function ++ " " ++
  right 8 attemptsStr ++ " " ++
  right 10 elapsedStr ++ " " ++
  left 40 r.status ++ "\n"

/-- tui.go logoView; the ASCII-art lines are abbreviated to placeholders (the
artwork text is display-only and not the subject of any claim), keeping the
tick-driven underscore alternation. -/
def logoView (ticks : Nat) : String :=
  if ticks % 2 = 0 then
    renderStyled .logoStyle "dispatch" ++
    renderStyled .logoUnderscoreStyle "_" ++ "\n\n"
  else renderStyled .logoStyle "dispatch" ++ "\n\n"

/-- tui.go functionCallsView, threading the store state through the render
pass; ticks and sp are the TUI animation inputs read by the view. -/
def functionCallsView (ticks : Nat) (sp : String) (now : Time) (fuel : Nat)
    (s : TUIState) : TUIState × String :=
  if (s.roots.getD []).isEmpty then
    (s, logoView ticks ++
        renderStyled .statusStyle "Waiting for function calls...\n")
  else
    let step := fun (acc : TUIState × String × Bool) (rootID : DispatchID) =>
      let b := if acc.2.2 then acc.2.1 else acc.2.1 ++ "\n"
      let br := buildRowsGo sp now fuel acc.1 [(rootID, [])]
      let maxFunctionWidth :=
        br.2.foldl (fun w r => max w (printableRuneWidth r.function)) 0
      let functionColumnWidth := max 20 (min 50 maxFunctionWidth)
      let b := b ++ tableHeaderView functionColumnWidth
      let b := br.2.foldl (fun b r => b ++ tableRowView r functionColumnWidth) b
      (br.1, b, false)
    let out := s.orderedRoots.foldl step (s, "", true)
    (out.1, out.2.1)

/-! Classifier theorems -/

/-- Transport-status classification written from the words of the spec:
4xx terminal except 408 and 429; 5xx non-terminal except 501; anything else
terminal. -/
def specTerminalHTTP (code : Int) : Bool :=
  if 400 ≤ code ∧ code ≤ 499 then decide (¬(code = 408 ∨ code = 429))
  else if 500 ≤ code ∧ code ≤ 599 then decide (code = 501)
  else true

/-- A whole observation run: ObserveRequest events processed in order from
the zero-valued TUI, aborting if any one panics. -/
def processRequests (evs : List (RunRequest × Time)) : Option TUIState :=
  evs.foldlM (fun s e => observeRequest s e.1 e.2) ({} : TUIState)

/-- The root-registry invariant: the ordered root list is duplicate-free and
lists exactly the members of the roots set. -/
def RootsInv (s : TUIState) : Prop :=
  s.orderedRoots.Nodup ∧
  ∀ x, x ∈ s.orderedRoots ↔ x ∈ s.roots.getD []

/-- Attempt counting written from the words of the spec sentence, reading
its three "plus one" clauses additively, with the exclusivity stated by the
parenthetical on the third clause only. -/
def specAttempts (n : Node) : Nat :=
  max (n.failures + (if n.running then 1 else 0) +
       (if n.done ∧ n.status = STATUS_OK then 1 else 0) +
       (if n.responses > n.failures ∧ ¬n.running ∧
           ¬(n.done ∧ n.status = STATUS_OK) then 1 else 0)) 1

theorem tdiv_nonneg_eq (m : Nat) :
    Int.tdiv (Int.ofNat m) 100 = Int.ofNat (m / 100) := rfl

theorem tdiv_negSucc_eq (m : Nat) :
    Int.tdiv (Int.negSucc m) 100 = -Int.ofNat ((m + 1) / 100) := rfl

theorem tdiv_hundred_bounds (c : Int) :
    (Int.tdiv c 100 = 4 ↔ 400 ≤ c ∧ c ≤ 499) ∧
    (Int.tdiv c 100 = 5 ↔ 500 ≤ c ∧ c ≤ 599) := by
  rcases c with m | m
  · rw [tdiv_nonneg_eq]
    simp only [Int.ofNat_eq_coe]
    constructor <;> constructor <;> intro h <;> omega
  · rw [tdiv_negSucc_eq]
    simp only [Int.ofNat_eq_coe, Int.negSucc_eq]
    constructor <;> constructor <;> intro h <;> omega

/-- C3: the terminal/non-terminal classification is total and matches the
fixed tables: terminalStatus is false exactly on the eight listed
non-terminal codes (and true on every other integer code, recognized or
not), and terminalHTTPStatusCode agrees with the spec table (4xx terminal
except 408 and 429, 5xx non-terminal except 501, anything else terminal). -/
theorem terminal_classification_matches_tables :
    (∀ s : Status, terminalStatus s = false ↔
      (s = STATUS_TIMEOUT ∨ s = STATUS_THROTTLED ∨
       s = STATUS_TEMPORARY_ERROR ∨ s = STATUS_INCOMPATIBLE_STATE ∨
       s = STATUS_DNS_ERROR ∨ s = STATUS_TCP_ERROR ∨
       s = STATUS_TLS_ERROR ∨ s = STATUS_HTTP_ERROR)) ∧
    (∀ code : Int, terminalHTTPStatusCode code = specTerminalHTTP code) := by
  constructor
  · intro s
    unfold terminalStatus
    split
    · simp_all
    · simp_all
  · intro c
    obtain ⟨h4, h5⟩ := tdiv_hundred_bounds c
    unfold terminalHTTPStatusCode specTerminalHTTP
    by_cases c4 : 400 ≤ c ∧ c ≤ 499
    · rw [if_pos (h4.mpr c4), if_pos c4]
    · rw [if_neg (fun hh => c4 (h4.mp hh)), if_neg c4]
      by_cases c5 : 500 ≤ c ∧ c ≤ 599
      · rw [if_pos (h5.mpr c5), if_pos c5]
      · rw [if_neg (fun hh => c5 (h5.mp hh)), if_neg c5]

/-! Association-list map lemmas -/

theorem NodeMap.find?_insert (m : NodeMap) (k : DispatchID) (v : Node)
    (k' : DispatchID) :
    (m.insert k v).find? k' = if k = k' then some v else m.find? k' := by
  induction m with
  | nil =>
      by_cases h : k = k' <;> simp [NodeMap.insert, NodeMap.find?, h]
  | cons hd tl ih =>
      obtain ⟨hk, hv⟩ := hd
      by_cases h1 : hk = k <;> by_cases h2 : k = k' <;>
        simp_all [NodeMap.insert, NodeMap.find?]

theorem NodeMap.get_insert (m : NodeMap) (k : DispatchID) (v : Node)
    (k' : DispatchID) :
    (m.insert k v).get k' = if k = k' then v else m.get k' := by
  unfold NodeMap.get
  rw [NodeMap.find?_insert]
  by_cases h : k = k' <;> simp [h]

theorem NodeMap.contains_insert (m : NodeMap) (k : DispatchID) (v : Node)
    (k' : DispatchID) :
    (m.insert k v).contains k' = (decide (k = k') || m.contains k') := by
  unfold NodeMap.contains
  rw [NodeMap.find?_insert]
  by_cases h : k = k' <;> simp [h]

theorem NodeMap.get_insert_get (m : NodeMap) (k k' : DispatchID) :
    (m.insert k (m.get k)).get k' = m.get k' := by
  rw [NodeMap.get_insert]
  by_cases h : k = k' <;> simp [h]

theorem NodeMap.get_eq_of_find? {m : NodeMap} {k : DispatchID} {v : Node}
    (h : m.find? k = some v) : m.get k = v := by
  unfold NodeMap.get
  rw [h]
  rfl

theorem NodeMap.contains_of_find? {m : NodeMap} {k : DispatchID} {v : Node}
    (h : m.find? k = some v) : m.contains k = true := by
  unfold NodeMap.contains
  rw [h]
  rfl

/-! Field lemmas for the node transitions -/

theorem requestNode_eq (n : Node) (req : RunRequest) (now : Time) :
    requestNode n req now =
      { n with function := req.function, running := true,
               creationTime :=
                 (if req.creationTime.getD n.creationTime = 0 then now
                  else req.creationTime.getD n.creationTime),
               expirationTime := req.expirationTime.getD n.expirationTime } := by
  unfold requestNode
  cases req.creationTime <;> cases req.expirationTime <;>
    simp only [Option.getD_some, Option.getD_none] <;> split_ifs <;> rfl

theorem requestNode_fields (n : Node) (req : RunRequest) (now : Time) :
    (requestNode n req now).function = req.function ∧
    (requestNode n req now).running = true ∧
    (requestNode n req now).failures = n.failures ∧
    (requestNode n req now).responses = n.responses ∧
    (requestNode n req now).status = n.status ∧
    (requestNode n req now).error = n.error ∧
    (requestNode n req now).done = n.done ∧
    (requestNode n req now).doneTime = n.doneTime ∧
    (requestNode n req now).children = n.children ∧
    (requestNode n req now).orderedChildren = n.orderedChildren := by
  rw [requestNode_eq]
  simp

theorem requestNode_expirationTime (n : Node) (req : RunRequest) (now : Time) :
    (requestNode n req now).expirationTime =
      req.expirationTime.getD n.expirationTime := by
  rw [requestNode_eq]

theorem requestNode_creationTime (n : Node) (req : RunRequest) (now : Time) :
    (requestNode n req now).creationTime =
      (if req.creationTime.getD n.creationTime = 0 then now
       else req.creationTime.getD n.creationTime) := by
  rw [requestNode_eq]

theorem linkedParent_mem_children (p : Node) (id : DispatchID) :
    (linkedParent p id).children.contains id = true := by
  unfold linkedParent
  split
  · assumption
  · simp

theorem linkedParent_eq_of_contains (p : Node) (id : DispatchID)
    (h : p.children.contains id = true) : linkedParent p id = p := by
  unfold linkedParent
  rw [if_pos h]

/-! State lemmas for the three ObserveRequest blocks -/

theorem upsertRoot_getNode (s : TUIState) (rootID k : DispatchID) :
    (upsertRoot s rootID).getNode k = s.getNode k := by
  unfold upsertRoot TUIState.getNode
  simp [NodeMap.get_insert_get]

theorem upsertRoot_nodes (s : TUIState) (rootID : DispatchID) :
    (upsertRoot s rootID).nodes =
      some ((s.nodes.getD []).insert rootID ((s.nodes.getD []).get rootID)) := rfl

theorem upsertRoot_orderedRoots (s : TUIState) (rootID : DispatchID) :
    (upsertRoot s rootID).orderedRoots =
      (if (s.roots.getD []).contains rootID then s.orderedRoots
       else s.orderedRoots ++ [rootID]) := rfl

theorem upsertRoot_roots (s : TUIState) (rootID : DispatchID) :
    (upsertRoot s rootID).roots =
      some (if (s.roots.getD []).contains rootID then s.roots.getD []
            else s.roots.getD [] ++ [rootID]) := rfl

theorem upsertRoot_roots_contains (s : TUIState) (rootID : DispatchID) :
    ((upsertRoot s rootID).roots.getD []).contains rootID = true := by
  rw [upsertRoot_roots]
  split
  · next h => simpa using h
  · simp

theorem upsertNode_getNode (s : TUIState) (req : RunRequest) (now : Time)
    (k : DispatchID) :
    (upsertNode s req now).getNode k =
      (if req.dispatchId = k
       then requestNode (s.getNode req.dispatchId) req now
       else s.getNode k) := by
  unfold upsertNode TUIState.getNode
  simp [NodeMap.get_insert]

theorem upsertNode_roots (s : TUIState) (req : RunRequest) (now : Time) :
    (upsertNode s req now).roots = s.roots := rfl

theorem upsertNode_orderedRoots (s : TUIState) (req : RunRequest) (now : Time) :
    (upsertNode s req now).orderedRoots = s.orderedRoots := rfl

theorem upsertNode_nodes (s : TUIState) (req : RunRequest) (now : Time) :
    (upsertNode s req now).nodes =
      some ((s.nodes.getD []).insert req.dispatchId
        (requestNode ((s.nodes.getD []).get req.dispatchId) req now)) := rfl

theorem linkParent_empty (s : TUIState) (rootID id : DispatchID) :
    linkParent s rootID "" id = some s := rfl

theorem linkParent_some (s : TUIState) (rootID parentID id : DispatchID)
    (hne : parentID ≠ "")
    (h : (s.nodes.getD []).contains parentID = true ∨ parentID = rootID) :
    linkParent s rootID parentID id =
      some { s with nodes := some ((s.nodes.getD []).insert parentID
               (linkedParent ((s.nodes.getD []).get parentID) id)) } := by
  unfold linkParent
  rw [if_neg hne, if_pos h]

theorem linkParent_none (s : TUIState) (rootID parentID id : DispatchID)
    (hne : parentID ≠ "")
    (h : ¬((s.nodes.getD []).contains parentID = true ∨ parentID = rootID)) :
    linkParent s rootID parentID id = none := by
  unfold linkParent
  rw [if_neg hne, if_neg h]

/-! ObserveRequest case analysis -/

theorem observeRequest_some_elim {s : TUIState} {req : RunRequest} {now : Time}
    {s1 : TUIState} (h : observeRequest s req now = some s1) :
    (req.parentDispatchId = "" ∧
     s1 = upsertNode (upsertRoot s req.rootDispatchId) req now) ∨
    (req.parentDispatchId ≠ "" ∧
     (((upsertNode (upsertRoot s req.rootDispatchId) req now).nodes.getD
         []).contains req.parentDispatchId = true ∨
       req.parentDispatchId = req.rootDispatchId) ∧
     s1 = { upsertNode (upsertRoot s req.rootDispatchId) req now with
            nodes := some
              (((upsertNode (upsertRoot s req.rootDispatchId) req
                    now).nodes.getD []).insert req.parentDispatchId
                (linkedParent
                  (((upsertNode (upsertRoot s req.rootDispatchId) req
                      now).nodes.getD []).get req.parentDispatchId)
                  req.dispatchId)) }) := by
  unfold observeRequest at h
  by_cases hp : req.parentDispatchId = ""
  · rw [hp, linkParent_empty] at h
    exact Or.inl ⟨hp, (Option.some.inj h).symm⟩
  · by_cases hc :
      ((upsertNode (upsertRoot s req.rootDispatchId) req now).nodes.getD
        []).contains req.parentDispatchId = true ∨
      req.parentDispatchId = req.rootDispatchId
    · rw [linkParent_some _ _ _ _ hp hc] at h
      exact Or.inr ⟨hp, hc, (Option.some.inj h).symm⟩
    · rw [linkParent_none _ _ _ _ hp hc] at h
      exact absurd h (by simp)

theorem contains_after_upserts (s : TUIState) (req : RunRequest) (now : Time)
    (k : DispatchID) :
    ((upsertNode (upsertRoot s req.rootDispatchId) req now).nodes.getD
      []).contains k =
    (decide (req.dispatchId = k) || decide (req.rootDispatchId = k) ||
     (s.nodes.getD []).contains k) := by
  rw [upsertNode_nodes]
  simp only [Option.getD_some]
  rw [NodeMap.contains_insert, upsertRoot_nodes]
  simp only [Option.getD_some]
  rw [NodeMap.contains_insert]
  simp [Bool.or_assoc]

theorem getNode_after_upserts (s : TUIState) (req : RunRequest) (now : Time)
    (k : DispatchID) :
    (upsertNode (upsertRoot s req.rootDispatchId) req now).getNode k =
      (if req.dispatchId = k
       then requestNode (s.getNode req.dispatchId) req now
       else s.getNode k) := by
  rw [upsertNode_getNode]
  by_cases h : req.dispatchId = k <;> simp [h, upsertRoot_getNode]

/-- C7 counterexample: a request whose non-empty parent id equals the
request id itself, names a node absent from the pre-call store, and differs
from the declared root does NOT abort: ObserveRequest succeeds and links the
node as its own child. -/
theorem observeRequest_self_parent_no_panic :
    (({} : TUIState).nodes.getD []).contains "a" = false ∧
    (observeRequest {}
      { rootDispatchId := "r", parentDispatchId := "a", dispatchId := "a",
        function := "f" } 5).isSome = true ∧
    Option.map (fun s => (s.getNode "a").orderedChildren)
      (observeRequest {}
        { rootDispatchId := "r", parentDispatchId := "a", dispatchId := "a",
          function := "f" } 5) = some ["a"] := by decide

/-- C7 (amended): an ObserveRequest whose parentID is non-empty, absent from
the pre-call store, and different from BOTH the request root and the request
id itself aborts (panics); and whenever parentID equals rootID the operation
never panics (the root upsert has already provided the placeholder parent). -/
theorem observeRequest_missing_parent_panics :
    (∀ s req now, req.parentDispatchId ≠ "" →
      (s.nodes.getD []).contains req.parentDispatchId = false →
      req.parentDispatchId ≠ req.rootDispatchId →
      req.parentDispatchId ≠ req.dispatchId →
      observeRequest s req now = none) ∧
    (∀ s req now, req.parentDispatchId = req.rootDispatchId →
      (observeRequest s req now).isSome = true) := by
  constructor
  · intro s req now hne habs hroot hid
    unfold observeRequest
    apply linkParent_none _ _ _ _ hne
    intro hcon
    rcases hcon with hcon | hcon
    · rw [contains_after_upserts] at hcon
      simp only [Bool.or_eq_true, decide_eq_true_eq] at hcon
      rcases hcon with (h | h) | h
      · exact hid h.symm
      · exact hroot h.symm
      · rw [habs] at h
        exact Bool.false_ne_true h
    · exact hroot hcon
  · intro s req now hpr
    unfold observeRequest
    by_cases hp : req.parentDispatchId = ""
    · rw [hp, linkParent_empty]
      rfl
    · rw [linkParent_some _ _ _ _ hp (Or.inr hpr)]
      rfl

/-- C7 witness: the amended theorem applied at concrete inputs, for both the
panic direction and the parent-equals-root direction. -/
theorem observeRequest_missing_parent_panics_witness :
    observeRequest {}
      { rootDispatchId := "r", parentDispatchId := "p", dispatchId := "a",
        function := "f" } 1 = none ∧
    (observeRequest {}
      { rootDispatchId := "r", parentDispatchId := "r", dispatchId := "a",
        function := "f" } 1).isSome = true :=
  ⟨observeRequest_missing_parent_panics.1 {} _ 1 (by decide) (by decide)
      (by decide) (by decide),
   observeRequest_missing_parent_panics.2 {} _ 1 (by decide)⟩

theorem getNode_link (s2 : TUIState) (parentID : DispatchID) (v : Node)
    (k : DispatchID) :
    ({ s2 with nodes := some ((s2.nodes.getD []).insert parentID v)
     } : TUIState).getNode k = (if parentID = k then v else s2.getNode k) := by
  unfold TUIState.getNode
  simp [NodeMap.get_insert]

theorem observeRequest_getNode_target {s : TUIState} {req : RunRequest}
    {now : Time} {s1 : TUIState}
    (hpid : req.parentDispatchId ≠ req.dispatchId)
    (h : observeRequest s req now = some s1) :
    s1.getNode req.dispatchId =
      requestNode (s.getNode req.dispatchId) req now := by
  rcases observeRequest_some_elim h with ⟨hp, rfl⟩ | ⟨hp, hc, rfl⟩
  · rw [getNode_after_upserts]
    simp
  · rw [getNode_link]
    rw [if_neg hpid, getNode_after_upserts]
    simp

/-- C10 counterexample: the node for id a exists with an empty child list; a
subsequent ObserveRequest for the same DispatchID a (naming a as its own
parent) does not leave the child list unchanged, it appends a to it. -/
theorem observeRequest_self_parent_changes_children :
    (({ roots := some ["a"], orderedRoots := ["a"],
        nodes := some [("a", { function := "f" })] } : TUIState).nodes.getD
      []).contains "a" = true ∧
    (({ roots := some ["a"], orderedRoots := ["a"],
        nodes := some [("a", { function := "f" })] } : TUIState).getNode
      "a").orderedChildren = [] ∧
    Option.map (fun st => (st.getNode "a").orderedChildren)
      (observeRequest
        { roots := some ["a"], orderedRoots := ["a"],
          nodes := some [("a", { function := "f" })] }
        { rootDispatchId := "r", parentDispatchId := "a", dispatchId := "a",
          function := "f" } 3) = some ["a"] := by decide

/-- C10 (amended): for every existing node, a subsequent ObserveRequest for
its DispatchID whose parent id is not the node itself preserves failures,
responses, outcome code, recorded error, done, doneTime and the child list;
it only sets function and running = true, overwrites expirationTime and a
carried non-zero creationTime, and defaults creationTime to now only when
still unset. -/
theorem observeRequest_existing_node_update :
    ∀ s req now s1, (s.nodes.getD []).contains req.dispatchId = true →
      req.parentDispatchId ≠ req.dispatchId →
      observeRequest s req now = some s1 →
      ((s1.getNode req.dispatchId).failures =
         (s.getNode req.dispatchId).failures ∧
       (s1.getNode req.dispatchId).responses =
         (s.getNode req.dispatchId).responses ∧
       (s1.getNode req.dispatchId).status =
         (s.getNode req.dispatchId).status ∧
       (s1.getNode req.dispatchId).error = (s.getNode req.dispatchId).error ∧
       (s1.getNode req.dispatchId).done = (s.getNode req.dispatchId).done ∧
       (s1.getNode req.dispatchId).doneTime =
         (s.getNode req.dispatchId).doneTime ∧
       (s1.getNode req.dispatchId).children =
         (s.getNode req.dispatchId).children ∧
       (s1.getNode req.dispatchId).orderedChildren =
         (s.getNode req.dispatchId).orderedChildren ∧
       (s1.getNode req.dispatchId).function = req.function ∧
       (s1.getNode req.dispatchId).running = true) ∧
      ((∀ t, req.expirationTime = some t →
          (s1.getNode req.dispatchId).expirationTime = t) ∧
       (req.expirationTime = none →
          (s1.getNode req.dispatchId).expirationTime =
            (s.getNode req.dispatchId).expirationTime)) ∧
      ((∀ c, req.creationTime = some c → c ≠ 0 →
          (s1.getNode req.dispatchId).creationTime = c) ∧
       (req.creationTime = none →
          (s.getNode req.dispatchId).creationTime ≠ 0 →
          (s1.getNode req.dispatchId).creationTime =
            (s.getNode req.dispatchId).creationTime) ∧
       (req.creationTime = none →
          (s.getNode req.dispatchId).creationTime = 0 →
          (s1.getNode req.dispatchId).creationTime = now)) := by
  intro s req now s1 hmem hpid h
  have hn := observeRequest_getNode_target hpid h
  rw [hn]
  obtain ⟨hf, hr, hfa, hre, hst, herr, hd, hdt, hch, hoc⟩ :=
    requestNode_fields (s.getNode req.dispatchId) req now
  refine ⟨⟨hfa, hre, hst, herr, hd, hdt, hch, hoc, hf, hr⟩, ⟨?_, ?_⟩, ?_, ?_, ?_⟩
  · intro t ht
    rw [requestNode_expirationTime, ht]
    rfl
  · intro ht
    rw [requestNode_expirationTime, ht]
    rfl
  · intro c hc hc0
    rw [requestNode_creationTime, hc]
    simp [hc0]
  · intro hc hc0
    rw [requestNode_creationTime, hc]
    simp [hc0]
  · intro hc hc0
    rw [requestNode_creationTime, hc]
    simp [hc0]

/-- C10 witness: the amended theorem applied to a concrete existing node,
with a concrete re-request carrying an expiration time. -/
theorem observeRequest_existing_node_update_witness :
    (((observeRequest
        { roots := some ["a"], orderedRoots := ["a"],
          nodes := some [("a",
            { function := "old", failures := 2, responses := 3,
              status := 2, error := some "boom", creationTime := 7 })] }
        { rootDispatchId := "a", parentDispatchId := "", dispatchId := "a",
          function := "f2", expirationTime := some 9 } 11).getD
      {}).getNode "a").failures = 2 ∧
    (((observeRequest
        { roots := some ["a"], orderedRoots := ["a"],
          nodes := some [("a",
            { function := "old", failures := 2, responses := 3,
              status := 2, error := some "boom", creationTime := 7 })] }
        { rootDispatchId := "a", parentDispatchId := "", dispatchId := "a",
          function := "f2", expirationTime := some 9 } 11).getD
      {}).getNode "a").expirationTime = 9 := by
  have h := observeRequest_existing_node_update
    { roots := some ["a"], orderedRoots := ["a"],
      nodes := some [("a",
        { function := "old", failures := 2, responses := 3,
          status := 2, error := some "boom", creationTime := 7 })] }
    { rootDispatchId := "a", parentDispatchId := "", dispatchId := "a",
      function := "f2", expirationTime := some 9 } 11
    ((observeRequest
        { roots := some ["a"], orderedRoots := ["a"],
          nodes := some [("a",
            { function := "old", failures := 2, responses := 3,
              status := 2, error := some "boom", creationTime := 7 })] }
        { rootDispatchId := "a", parentDispatchId := "", dispatchId := "a",
          function := "f2", expirationTime := some 9 } 11).getD {})
    (by decide) (by decide) (by decide)
  refine ⟨?_, ?_⟩
  · rw [h.1.1]
    decide
  · rw [h.2.1.1 9 rfl]

/-! ObserveResponse case analysis -/

theorem linkedParent_done (p : Node) (id : DispatchID) :
    (linkedParent p id).done = p.done := by
  unfold linkedParent
  split <;> rfl

theorem observeResponse_some_elim {s : TUIState} {req : RunRequest}
    {err : Option String} {httpRes : Option Int} {res : Option RunResponse}
    {now : Time} {s1 : TUIState}
    (h : observeResponse s req err httpRes res now = some s1) :
    ∃ m, s.nodes = some m ∧
      s1 = { s with nodes := some (m.insert req.dispatchId
               (runResponseNode (m.get req.dispatchId) err httpRes res now)) } := by
  unfold observeResponse at h
  cases hm : s.nodes with
  | none => rw [hm] at h; cases h
  | some m =>
      rw [hm] at h
      simp only [Option.getD_some] at h
      exact ⟨m, rfl, (Option.some.inj h).symm⟩

theorem observeResponse_getNode {s : TUIState} {req : RunRequest}
    {err : Option String} {httpRes : Option Int} {res : Option RunResponse}
    {now : Time} {s1 : TUIState}
    (h : observeResponse s req err httpRes res now = some s1)
    (k : DispatchID) :
    s1.getNode k =
      (if req.dispatchId = k
       then runResponseNode (s.getNode req.dispatchId) err httpRes res now
       else s.getNode k) := by
  obtain ⟨m, hm, rfl⟩ := observeResponse_some_elim h
  unfold TUIState.getNode
  simp only [hm, Option.getD_some]
  rw [NodeMap.get_insert]

/-- Normal form of the done flag after the ObserveResponse node transition:
an Exit directive overwrites done with the terminality of the response
status (false after a tail-call reset), a stale-state reset without an Exit
clears it, a transport failure overwrites it with the HTTP classification,
and anything else leaves it unchanged. -/
theorem runResponseNode_done (n : Node) (err : Option String)
    (httpRes : Option Int) (res : Option RunResponse) (now : Time) :
    (runResponseNode n err httpRes res now).done =
      (match res with
       | some r =>
           match r.directive with
           | .exit d =>
               (match d.tailCall with
                | some _ => false
                | none => terminalStatus r.status)
           | .poll =>
               if r.status = STATUS_OK then n.done
               else if r.status = STATUS_INCOMPATIBLE_STATE then false
               else n.done
           | .missing =>
               if r.status = STATUS_OK then n.done
               else if r.status = STATUS_INCOMPATIBLE_STATE then false
               else n.done
       | none =>
           match httpRes with
           | some c => terminalHTTPStatusCode c
           | none => n.done) := by
  unfold runResponseNode
  rcases res with _ | r
  · rcases httpRes with _ | c
    · rcases err with _ | e <;> simp [apply_ite Node.done]
    · simp [apply_ite Node.done]
  · rcases hd : r.directive with _ | d | _
    · by_cases h1 : r.status = STATUS_OK <;>
        by_cases h2 : r.status = STATUS_INCOMPATIBLE_STATE <;>
          simp [hd, h1, h2, apply_ite Node.done]
    · rcases htc : d.tailCall with _ | tc
      · rcases hre : d.result with _ | result
        · by_cases h1 : r.status = STATUS_OK <;>
            by_cases h2 : r.status = STATUS_INCOMPATIBLE_STATE <;>
              simp [hd, htc, hre, h1, h2, apply_ite Node.done]
        · rcases he : result.error with _ | e
          · by_cases h1 : r.status = STATUS_OK <;>
              by_cases h2 : r.status = STATUS_INCOMPATIBLE_STATE <;>
                simp [hd, htc, hre, he, h1, h2, apply_ite Node.done]
          · by_cases h1 : r.status = STATUS_OK <;>
              by_cases h2 : r.status = STATUS_INCOMPATIBLE_STATE <;>
                by_cases h3 : e.type = "" <;>
                  by_cases h4 : e.message = "" <;>
                    simp [hd, htc, hre, he, h1, h2, h3, h4,
                      apply_ite Node.done]
      · by_cases h1 : r.status = STATUS_OK <;>
          by_cases h2 : r.status = STATUS_INCOMPATIBLE_STATE <;>
            simp [hd, htc, h1, h2, apply_ite Node.done]
    · by_cases h1 : r.status = STATUS_OK <;>
        by_cases h2 : r.status = STATUS_INCOMPATIBLE_STATE <;>
          simp [hd, h1, h2, apply_ite Node.done]

/-- C1 counterexample: a node whose done flag is true (after a successful
exit) receives a later ObserveResponse carrying an Exit directive with the
non-terminal Timeout outcome; this is neither a stale-state nor a tail-call
reset, yet done is turned back to false. -/
theorem done_cleared_by_nonterminal_exit :
    (({ roots := some ["a"], orderedRoots := ["a"],
        nodes := some [("a",
          { function := "f", responses := 1, status := 1, done := true,
            doneTime := 5 })] } : TUIState).getNode "a").done = true ∧
    Option.map (fun st => (st.getNode "a").done)
      (observeResponse
        { roots := some ["a"], orderedRoots := ["a"],
          nodes := some [("a",
            { function := "f", responses := 1, status := 1, done := true,
              doneTime := 5 })] }
        { dispatchId := "a" } none none
        (some { status := 2, directive := .exit {} }) 10) = some false ∧
    Option.map (fun st => (st.getNode "a").done)
      (observeResponse
        { roots := some ["a"], orderedRoots := ["a"],
          nodes := some [("a",
            { function := "f", responses := 1, status := 1, done := true,
              doneTime := 5 })] }
        { dispatchId := "a" } none (some 503) none 10) = some false := by
  decide

/-- C1 (amended): once a node's done flag is true, every later
ObserveRequest preserves it, and a later ObserveResponse preserves it unless
the response is a stale-state reset, a tail-call reset, carries an Exit
directive whose outcome code is non-terminal, or is a transport failure
whose HTTP status is non-terminal (an Exit directive and a transport
failure overwrite done with the classification of their code). -/
theorem done_monotonic_except_resets_and_nonterminal :
    (∀ s req now s1 k, observeRequest s req now = some s1 →
      (s.getNode k).done = true → (s1.getNode k).done = true) ∧
    (∀ s req err httpRes res now s1 k,
      (∀ r, res = some r → r.status ≠ STATUS_INCOMPATIBLE_STATE ∧
        ∀ d, r.directive = Directive.exit d →
          terminalStatus r.status = true ∧ d.tailCall = none) →
      (res = none → ∀ c, httpRes = some c →
        terminalHTTPStatusCode c = true) →
      observeResponse s req err httpRes res now = some s1 →
      (s.getNode k).done = true → (s1.getNode k).done = true) := by
  have hgn : ∀ (x : TUIState) (k : DispatchID),
      (x.nodes.getD []).get k = x.getNode k := fun _ _ => rfl
  constructor
  · intro s req now s1 k h hdone
    rcases observeRequest_some_elim h with ⟨hp, rfl⟩ | ⟨hp, hc, rfl⟩
    · rw [getNode_after_upserts]
      split
      · next heq =>
          rw [(requestNode_fields _ req now).2.2.2.2.2.2.1, heq]
          exact hdone
      · exact hdone
    · rw [getNode_link]
      split
      · next heq =>
          rw [linkedParent_done, hgn, getNode_after_upserts]
          split
          · next heq2 =>
              rw [(requestNode_fields _ req now).2.2.2.2.2.2.1, heq2, heq]
              exact hdone
          · rw [heq]
            exact hdone
      · rw [getNode_after_upserts]
        split
        · next heq2 =>
            rw [(requestNode_fields _ req now).2.2.2.2.2.2.1, heq2]
            exact hdone
        · exact hdone
  · intro s req err httpRes res now s1 k hres hhttp h hdone
    rw [observeResponse_getNode h]
    split
    · next heq =>
        rw [runResponseNode_done]
        rw [heq]
        rcases res with _ | r
        · rcases httpRes with _ | c
          · exact hdone
          · exact hhttp rfl c rfl
        · obtain ⟨hst, hex⟩ := hres r rfl
          rcases hd : r.directive with _ | d | _
          · simp only [hd]
            by_cases hok : r.status = STATUS_OK
            · rw [if_pos hok]
              exact hdone
            · rw [if_neg hok, if_neg hst]
              exact hdone
          · obtain ⟨hterm, htc⟩ := hex d hd
            simp only [hd, htc]
            exact hterm
          · simp only [hd]
            by_cases hok : r.status = STATUS_OK
            · rw [if_pos hok]
              exact hdone
            · rw [if_neg hok, if_neg hst]
              exact hdone
    · exact hdone

/-- C1 witness: the amended theorem applied at a concrete done node, for a
later request and for a later poll response. -/
theorem done_monotonic_witness :
    ((((observeRequest
        { roots := some ["a"], orderedRoots := ["a"],
          nodes := some [("a", { function := "f", done := true })] }
        { rootDispatchId := "a", parentDispatchId := "", dispatchId := "a",
          function := "f" } 4).getD {}).getNode "a").done = true) ∧
    ((((observeResponse
        { roots := some ["a"], orderedRoots := ["a"],
          nodes := some [("a", { function := "f", done := true })] }
        { dispatchId := "a" } none none
        (some { status := 1, directive := .poll }) 4).getD
      {}).getNode "a").done = true) := by
  constructor
  · exact done_monotonic_except_resets_and_nonterminal.1
      { roots := some ["a"], orderedRoots := ["a"],
        nodes := some [("a", { function := "f", done := true })] }
      { rootDispatchId := "a", parentDispatchId := "", dispatchId := "a",
        function := "f" } 4 _ "a" (by decide) (by decide)
  · exact done_monotonic_except_resets_and_nonterminal.2
      { roots := some ["a"], orderedRoots := ["a"],
        nodes := some [("a", { function := "f", done := true })] }
      { dispatchId := "a" } none none
      (some { status := 1, directive := .poll }) 4 _ "a"
      (fun r hr => by
        cases hr
        exact ⟨by decide, fun d hd => by cases hd⟩)
      (fun hn => by cases hn) (by decide) (by decide)

/-- Tail-call reset normal form: an Exit directive with a tail call replaces
the node by a fresh node carrying only the tail-call function, whatever the
response status was. -/
theorem runResponseNode_tailcall (n : Node) (err : Option String)
    (httpRes : Option Int) (r : RunResponse) (now : Time) (d : ExitDirective)
    (tc : TailCall) (hd : r.directive = Directive.exit d)
    (htc : d.tailCall = some tc) :
    runResponseNode n err httpRes (some r) now = { function := tc.function } := by
  unfold runResponseNode
  by_cases h1 : r.status = STATUS_OK <;>
    by_cases h2 : r.status = STATUS_INCOMPATIBLE_STATE <;>
      simp [hd, htc, h1, h2]

/-- Stale-state reset normal form: on the incompatible-state status and in
the absence of a tail call, the stored node keeps only the function name;
counters, times, and children are all zeroed (the status/error fields may
carry data from this same response). -/
theorem runResponseNode_stale (n : Node) (err : Option String)
    (httpRes : Option Int) (r : RunResponse) (now : Time)
    (hst : r.status = STATUS_INCOMPATIBLE_STATE)
    (hnt : ∀ d, r.directive = Directive.exit d → d.tailCall = none) :
    (runResponseNode n err httpRes (some r) now).function = n.function ∧
    (runResponseNode n err httpRes (some r) now).failures = 0 ∧
    (runResponseNode n err httpRes (some r) now).responses = 0 ∧
    (runResponseNode n err httpRes (some r) now).children = [] ∧
    (runResponseNode n err httpRes (some r) now).orderedChildren = [] ∧
    (runResponseNode n err httpRes (some r) now).done = false ∧
    (runResponseNode n err httpRes (some r) now).running = false ∧
    (runResponseNode n err httpRes (some r) now).creationTime = 0 ∧
    (runResponseNode n err httpRes (some r) now).expirationTime = 0 ∧
    (runResponseNode n err httpRes (some r) now).doneTime = 0 := by
  unfold runResponseNode
  rcases hdir : r.directive with _ | d | _
  · simp [hst, hdir, STATUS_OK, STATUS_INCOMPATIBLE_STATE]
  · have htc := hnt d hdir
    rcases hre : d.result with _ | result
    · simp [hst, hdir, htc, hre, STATUS_OK, STATUS_INCOMPATIBLE_STATE,
        terminalStatus, STATUS_TIMEOUT, STATUS_THROTTLED,
        STATUS_TEMPORARY_ERROR, STATUS_DNS_ERROR, STATUS_TCP_ERROR,
        STATUS_TLS_ERROR, STATUS_HTTP_ERROR]
    · rcases he : result.error with _ | e
      · simp [hst, hdir, htc, hre, he, STATUS_OK, STATUS_INCOMPATIBLE_STATE,
          terminalStatus, STATUS_TIMEOUT, STATUS_THROTTLED,
          STATUS_TEMPORARY_ERROR, STATUS_DNS_ERROR, STATUS_TCP_ERROR,
          STATUS_TLS_ERROR, STATUS_HTTP_ERROR]
      · by_cases h3 : e.type = "" <;> by_cases h4 : e.message = "" <;>
          simp [hst, hdir, htc, hre, he, h3, h4, STATUS_OK,
            STATUS_INCOMPATIBLE_STATE, terminalStatus, STATUS_TIMEOUT,
            STATUS_THROTTLED, STATUS_TEMPORARY_ERROR, STATUS_DNS_ERROR,
            STATUS_TCP_ERROR, STATUS_TLS_ERROR, STATUS_HTTP_ERROR]
  · simp [hst, hdir, STATUS_OK, STATUS_INCOMPATIBLE_STATE]

/-- Row facts for a freshly reset node: it renders as plain pending with a
single attempt and its function name (or the placeholder). -/
theorem buildRow_fresh (sp : String) (now : Time) (n : Node)
    (isLast : List Bool) (hdone : n.done = false)
    (hexp : n.expirationTime = 0) (hfail : n.failures = 0)
    (hrun : n.running = false) (hresp : n.responses = 0) :
    (buildRow sp now n isLast).attempts = 1 ∧
    (buildRow sp now n isLast).function =
      treePfx isLast ++
      (if n.function ≠ "" then renderStyled .pendingStyle n.function
       else renderStyled .pendingStyle "(?)") := by
  unfold buildRow judgeNode rowAttempts
  simp [hdone, hexp, hfail, hrun, hresp]

/-- C2 counterexample: a single ObserveResponse carrying BOTH the
stale-state outcome and an Exit tail call to g does not retain the node
function name: the tail-call replacement wins and the stored (and rendered)
function becomes g. -/
theorem stale_reset_with_tailcall_changes_function :
    (({ roots := some ["a"], orderedRoots := ["a"],
        nodes := some [("a",
          { function := "f", failures := 1, responses := 1 })] } :
        TUIState).getNode "a").function = "f" ∧
    Option.map (fun st => (st.getNode "a").function)
      (observeResponse
        { roots := some ["a"], orderedRoots := ["a"],
          nodes := some [("a",
            { function := "f", failures := 1, responses := 1 })] }
        { dispatchId := "a" } none none
        (some { status := 8,
                directive := .exit { tailCall := some { function := "g" } } })
        10) = some "g" ∧
    ("g" = "f") = False := by decide

/-- C2 (amended): a stale-state ObserveResponse that does not also carry a
tail call replaces the node with a fresh node retaining only the function
name (zero counters, no children, all times zero), and an immediate render
shows one attempt and the unchanged function name; an ObserveResponse whose
Exit directive carries a tail call to g replaces the node with the fresh
node for g (done false, all counters reset), and an immediate render shows
one attempt and function g. -/
theorem reset_replacement_semantics :
    (∀ s req err httpRes r now s1,
      r.status = STATUS_INCOMPATIBLE_STATE →
      (∀ d, r.directive = Directive.exit d → d.tailCall = none) →
      observeResponse s req err httpRes (some r) now = some s1 →
      ((s1.getNode req.dispatchId).function =
         (s.getNode req.dispatchId).function ∧
       (s1.getNode req.dispatchId).failures = 0 ∧
       (s1.getNode req.dispatchId).responses = 0 ∧
       (s1.getNode req.dispatchId).children = [] ∧
       (s1.getNode req.dispatchId).orderedChildren = [] ∧
       (s1.getNode req.dispatchId).done = false ∧
       (s1.getNode req.dispatchId).running = false ∧
       (s1.getNode req.dispatchId).creationTime = 0 ∧
       (s1.getNode req.dispatchId).expirationTime = 0 ∧
       (s1.getNode req.dispatchId).doneTime = 0) ∧
      (∀ sp now2 isLast,
        (buildRow sp now2 (s1.getNode req.dispatchId) isLast).attempts = 1 ∧
        (buildRow sp now2 (s1.getNode req.dispatchId) isLast).function =
          treePfx isLast ++
          (if (s.getNode req.dispatchId).function ≠ "" then
             renderStyled .pendingStyle (s.getNode req.dispatchId).function
           else renderStyled .pendingStyle "(?)"))) ∧
    (∀ s req err httpRes r now s1 d tc,
      r.directive = Directive.exit d → d.tailCall = some tc →
      observeResponse s req err httpRes (some r) now = some s1 →
      s1.getNode req.dispatchId = { function := tc.function } ∧
      (∀ sp now2 isLast,
        (buildRow sp now2 (s1.getNode req.dispatchId) isLast).attempts = 1 ∧
        (buildRow sp now2 (s1.getNode req.dispatchId) isLast).function =
          treePfx isLast ++
          (if tc.function ≠ "" then renderStyled .pendingStyle tc.function
           else renderStyled .pendingStyle "(?)"))) := by
  constructor
  · intro s req err httpRes r now s1 hst hnt h
    have hk := observeResponse_getNode h req.dispatchId
    rw [if_pos rfl] at hk
    obtain ⟨hf, hfa, hre, hch, hoc, hdn, hrun, hct, het, hdt⟩ :=
      runResponseNode_stale (s.getNode req.dispatchId) err httpRes r now
        hst hnt
    rw [hk]
    refine ⟨⟨hf, hfa, hre, hch, hoc, hdn, hrun, hct, het, hdt⟩, ?_⟩
    intro sp now2 isLast
    have hrow := buildRow_fresh sp now2 _ isLast hdn het hfa hrun hre
    rw [hrow.1, hrow.2, hf]
    exact ⟨rfl, rfl⟩
  · intro s req err httpRes r now s1 d tc hd htc h
    have hk := observeResponse_getNode h req.dispatchId
    rw [if_pos rfl] at hk
    rw [runResponseNode_tailcall _ err httpRes r now d tc hd htc] at hk
    rw [hk]
    refine ⟨rfl, ?_⟩
    intro sp now2 isLast
    exact buildRow_fresh sp now2 _ isLast rfl rfl rfl rfl rfl

/-- C2 witness: the amended theorem applied to a concrete stale-state
response without a tail call and to a concrete tail-call response. -/
theorem reset_replacement_semantics_witness :
    ((((observeResponse
        { roots := some ["a"], orderedRoots := ["a"],
          nodes := some [("a",
            { function := "f", failures := 2, responses := 3,
              creationTime := 7, orderedChildren := ["c"],
              children := ["c"] })] }
        { dispatchId := "a" } none none
        (some { status := 8, directive := .missing }) 10).getD
      {}).getNode "a").failures = 0) ∧
    ((((observeResponse
        { roots := some ["a"], orderedRoots := ["a"],
          nodes := some [("a",
            { function := "f", failures := 2, responses := 3,
              creationTime := 7 })] }
        { dispatchId := "a" } none none
        (some { status := 7,
                directive := .exit { tailCall := some { function := "g" } } })
        10).getD {}).getNode "a") = { function := "g" }) := by
  constructor
  · have h := reset_replacement_semantics.1
      { roots := some ["a"], orderedRoots := ["a"],
        nodes := some [("a",
          { function := "f", failures := 2, responses := 3,
            creationTime := 7, orderedChildren := ["c"],
            children := ["c"] })] }
      { dispatchId := "a" } none none
      { status := 8, directive := .missing } 10
      ((observeResponse
        { roots := some ["a"], orderedRoots := ["a"],
          nodes := some [("a",
            { function := "f", failures := 2, responses := 3,
              creationTime := 7, orderedChildren := ["c"],
              children := ["c"] })] }
        { dispatchId := "a" } none none
        (some { status := 8, directive := .missing }) 10).getD {})
      (by decide) (fun d hd => by cases hd) (by decide)
    exact h.1.2.1
  · have h := reset_replacement_semantics.2
      { roots := some ["a"], orderedRoots := ["a"],
        nodes := some [("a",
          { function := "f", failures := 2, responses := 3,
            creationTime := 7 })] }
      { dispatchId := "a" } none none
      { status := 7,
        directive := .exit { tailCall := some { function := "g" } } } 10
      ((observeResponse
        { roots := some ["a"], orderedRoots := ["a"],
          nodes := some [("a",
            { function := "f", failures := 2, responses := 3,
              creationTime := 7 })] }
        { dispatchId := "a" } none none
        (some { status := 7,
                directive := .exit { tailCall := some { function := "g" } } })
        10).getD {})
      { tailCall := some { function := "g" } } { function := "g" }
      (by decide) (by decide) (by decide)
    exact h.1

theorem NodeMap.get_of_not_contains {m : NodeMap} {k : DispatchID}
    (h : m.contains k = false) : m.get k = {} := by
  unfold NodeMap.contains at h
  unfold NodeMap.get
  cases hf : m.find? k with
  | none => rfl
  | some v => rw [hf] at h; cases h

/-- The response transition applied to the zero node never invents children
or request-carried times: they stay empty/zero in every branch. -/
theorem runResponseNode_default_static (err : Option String)
    (httpRes : Option Int) (res : Option RunResponse) (now : Time) :
    (runResponseNode {} err httpRes res now).children = [] ∧
    (runResponseNode {} err httpRes res now).orderedChildren = [] ∧
    (runResponseNode {} err httpRes res now).creationTime = 0 ∧
    (runResponseNode {} err httpRes res now).expirationTime = 0 := by
  unfold runResponseNode
  rcases res with _ | r
  · rcases httpRes with _ | c
    · rcases err with _ | e <;> simp [apply_ite Node.children,
        apply_ite Node.orderedChildren, apply_ite Node.creationTime,
        apply_ite Node.expirationTime]
    · simp [apply_ite Node.children, apply_ite Node.orderedChildren,
        apply_ite Node.creationTime, apply_ite Node.expirationTime]
  · rcases hdir : r.directive with _ | d | _
    · by_cases h1 : r.status = STATUS_OK <;>
        by_cases h2 : r.status = STATUS_INCOMPATIBLE_STATE <;>
          simp [hdir, h1, h2, apply_ite Node.children,
            apply_ite Node.orderedChildren, apply_ite Node.creationTime,
            apply_ite Node.expirationTime]
    · rcases htc : d.tailCall with _ | tc
      · rcases hre : d.result with _ | result
        · by_cases h1 : r.status = STATUS_OK <;>
            by_cases h2 : r.status = STATUS_INCOMPATIBLE_STATE <;>
              simp [hdir, htc, hre, h1, h2, apply_ite Node.children,
                apply_ite Node.orderedChildren, apply_ite Node.creationTime,
                apply_ite Node.expirationTime]
        · rcases he : result.error with _ | e
          · by_cases h1 : r.status = STATUS_OK <;>
              by_cases h2 : r.status = STATUS_INCOMPATIBLE_STATE <;>
                simp [hdir, htc, hre, he, h1, h2, apply_ite Node.children,
                  apply_ite Node.orderedChildren,
                  apply_ite Node.creationTime, apply_ite Node.expirationTime]
          · by_cases h1 : r.status = STATUS_OK <;>
              by_cases h2 : r.status = STATUS_INCOMPATIBLE_STATE <;>
                by_cases h3 : e.type = "" <;>
                  by_cases h4 : e.message = "" <;>
                    simp [hdir, htc, hre, he, h1, h2, h3, h4,
                      apply_ite Node.children,
                      apply_ite Node.orderedChildren,
                      apply_ite Node.creationTime,
                      apply_ite Node.expirationTime]
      · by_cases h1 : r.status = STATUS_OK <;>
          by_cases h2 : r.status = STATUS_INCOMPATIBLE_STATE <;>
            simp [hdir, htc, h1, h2, apply_ite Node.children,
              apply_ite Node.orderedChildren, apply_ite Node.creationTime,
              apply_ite Node.expirationTime]
    · by_cases h1 : r.status = STATUS_OK <;>
        by_cases h2 : r.status = STATUS_INCOMPATIBLE_STATE <;>
          simp [hdir, h1, h2, apply_ite Node.children,
            apply_ite Node.orderedChildren, apply_ite Node.creationTime,
            apply_ite Node.expirationTime]

/-- C8 counterexample: in the state where no ObserveRequest has ever been
processed (the node map was never initialized and is still the Go nil map),
ObserveResponse does fail: the final store into the nil map panics. -/
theorem observeResponse_uninitialized_store_panics :
    ({} : TUIState).nodes = none ∧
    observeResponse {} { dispatchId := "a" } none none none 7 = none := by
  decide

/-- C8 (amended): once the node storage has been initialized (the node map
exists, as after any ObserveRequest), an ObserveResponse for a DispatchID
never seen does not fail: it stores under that id exactly the node obtained
by applying the response processing to the zero node, whose children and
request-carried times are still empty/zero, and it leaves the root registry
untouched. -/
theorem response_to_unseen_id_after_init :
    ∀ s m req err httpRes res now, s.nodes = some m →
      m.contains req.dispatchId = false →
      observeResponse s req err httpRes res now =
        some { s with nodes := some (m.insert req.dispatchId
          (runResponseNode {} err httpRes res now)) } ∧
      (m.insert req.dispatchId
        (runResponseNode {} err httpRes res now)).contains
        req.dispatchId = true ∧
      (runResponseNode {} err httpRes res now).children = [] ∧
      (runResponseNode {} err httpRes res now).orderedChildren = [] ∧
      (runResponseNode {} err httpRes res now).creationTime = 0 ∧
      (runResponseNode {} err httpRes res now).expirationTime = 0 := by
  intro s m req err httpRes res now hm hc
  obtain ⟨hch, hoc, hct, het⟩ := runResponseNode_default_static err httpRes res now
  refine ⟨?_, ?_, hch, hoc, hct, het⟩
  · unfold observeResponse
    rw [hm]
    simp only [Option.getD_some]
    rw [NodeMap.get_of_not_contains hc]
  · rw [NodeMap.contains_insert]
    simp

/-- C8 witness: the amended theorem applied to an initialized store that has
never seen the id a, for a bare-error response. -/
theorem response_to_unseen_id_after_init_witness :
    (NodeMap.insert [("b", ({ function := "g" } : Node))] "a"
      (runResponseNode {} (some "boom") none none 4)).contains "a" = true ∧
    (runResponseNode {} (some "boom") none none 4).children = [] := by
  have h := response_to_unseen_id_after_init
    { roots := some ["b"], orderedRoots := ["b"],
      nodes := some [("b", { function := "g" })] }
    [("b", { function := "g" })] { dispatchId := "a" } (some "boom") none
    none 4 rfl (by decide)
  exact ⟨h.2.1, h.2.2.1⟩

/-! Root-registry lemmas -/

theorem observeRequest_roots_eq {s : TUIState} {req : RunRequest}
    {now : Time} {s1 : TUIState} (h : observeRequest s req now = some s1) :
    s1.roots = (upsertRoot s req.rootDispatchId).roots ∧
    s1.orderedRoots = (upsertRoot s req.rootDispatchId).orderedRoots := by
  rcases observeRequest_some_elim h with ⟨hp, rfl⟩ | ⟨hp, hc, rfl⟩ <;>
    exact ⟨rfl, rfl⟩

theorem observeRequest_roots_contains {s : TUIState} {req : RunRequest}
    {now : Time} {s1 : TUIState} (h : observeRequest s req now = some s1) :
    (s1.roots.getD []).contains req.rootDispatchId = true := by
  rw [(observeRequest_roots_eq h).1]
  exact upsertRoot_roots_contains s req.rootDispatchId

theorem roots_step {s : TUIState} {req : RunRequest} {now : Time}
    {s1 : TUIState} (hInv : RootsInv s)
    (h : observeRequest s req now = some s1) :
    RootsInv s1 ∧
    ∀ x, x ∈ s1.orderedRoots ↔
      (x ∈ s.orderedRoots ∨ x = req.rootDispatchId) := by
  obtain ⟨hr, ho⟩ := observeRequest_roots_eq h
  rw [upsertRoot_roots] at hr
  rw [upsertRoot_orderedRoots] at ho
  obtain ⟨hnd, hmem⟩ := hInv
  by_cases hc : (s.roots.getD []).contains req.rootDispatchId = true
  · have hcm : req.rootDispatchId ∈ s.roots.getD [] := by simpa using hc
    rw [if_pos hc] at hr
    rw [if_pos hc] at ho
    refine ⟨⟨?_, ?_⟩, ?_⟩
    · rw [ho]
      exact hnd
    · intro x
      rw [ho, hr]
      simpa using hmem x
    · intro x
      rw [ho]
      constructor
      · exact Or.inl
      · rintro (hx | rfl)
        · exact hx
        · exact (hmem _).mpr hcm
  · have hcm : req.rootDispatchId ∉ s.roots.getD [] := by
      intro hm
      exact hc (by simpa using hm)
    rw [if_neg hc] at hr
    rw [if_neg hc] at ho
    have hnotmem : req.rootDispatchId ∉ s.orderedRoots := by
      intro hm
      exact hcm ((hmem _).mp hm)
    refine ⟨⟨?_, ?_⟩, ?_⟩
    · rw [ho]
      simp [List.nodup_append, hnd, hnotmem]
    · intro x
      rw [ho, hr]
      simp only [Option.getD_some, List.mem_append, List.mem_singleton]
      rw [hmem x]
    · intro x
      rw [ho]
      simp [hmem x, List.mem_append]

theorem processRequests_aux :
    ∀ (evs : List (RunRequest × Time)) (s s1 : TUIState), RootsInv s →
      evs.foldlM (fun s e => observeRequest s e.1 e.2) s = some s1 →
      RootsInv s1 ∧
      ∀ x, x ∈ s1.orderedRoots ↔
        (x ∈ s.orderedRoots ∨ ∃ e ∈ evs, e.1.rootDispatchId = x) := by
  intro evs
  induction evs with
  | nil =>
      intro s s1 hInv h
      simp only [List.foldlM_nil] at h
      cases h
      exact ⟨hInv, fun x => by simp⟩
  | cons e rest ih =>
      intro s s1 hInv h
      rw [List.foldlM_cons] at h
      cases hstep : observeRequest s e.1 e.2 with
      | none =>
          rw [hstep] at h
          cases h
      | some sm =>
          rw [hstep] at h
          simp only [Option.bind_eq_bind, Option.some_bind] at h
          obtain ⟨hInvm, hstep2⟩ := roots_step hInv hstep
          obtain ⟨hInv1, hmem1⟩ := ih sm s1 hInvm h
          refine ⟨hInv1, fun x => ?_⟩
          rw [hmem1 x, hstep2 x]
          constructor
          · rintro ((hx | hx) | ⟨e2, he2, hx⟩)
            · exact Or.inl hx
            · exact Or.inr ⟨e, List.mem_cons_self e rest, hx.symm⟩
            · exact Or.inr ⟨e2, List.mem_cons_of_mem _ he2, hx⟩
          · rintro (hx | ⟨e2, he2, hx⟩)
            · exact Or.inl (Or.inl hx)
            · rcases List.mem_cons.mp he2 with rfl | he3
              · exact Or.inl (Or.inr hx.symm)
              · exact Or.inr ⟨e2, he3, hx⟩

theorem rootsInv_initial : RootsInv ({} : TUIState) := by
  constructor
  · exact List.nodup_nil
  · intro x
    simp [TUIState.getNode]

theorem getD_get_getNode (x : TUIState) (k : DispatchID) :
    (x.nodes.getD []).get k = x.getNode k := rfl

theorem observeRequest_parent_linked {s : TUIState} {req : RunRequest}
    {now : Time} {s1 : TUIState} (hp : req.parentDispatchId ≠ "")
    (h : observeRequest s req now = some s1) :
    (s1.getNode req.parentDispatchId).children.contains
      req.dispatchId = true ∧
    (s1.nodes.getD []).contains req.parentDispatchId = true := by
  rcases observeRequest_some_elim h with ⟨hp1, _⟩ | ⟨hp1, hc1, rfl⟩
  · exact absurd hp1 hp
  · constructor
    · rw [getNode_link, if_pos rfl]
      exact linkedParent_mem_children _ _
    · simp only [Option.getD_some, NodeMap.contains_insert]
      simp

/-- C6: ObserveRequest is idempotent on structure.  First, for every
successfully processed sequence of requests, each DispatchID occurs in the
ordered root registry exactly once when some request of the sequence names
it as root and zero times otherwise, however often it is (re)named.  Second,
immediately re-observing a request (same root, parent and id) succeeds,
leaves the root registry unchanged, and leaves every ordered child list of
every node unchanged (no duplicate child entry, no reordering). -/
theorem observeRequest_idempotent_structure :
    (∀ evs s, processRequests evs = some s →
      ∀ id, s.orderedRoots.count id =
        (if ∃ e ∈ evs, e.1.rootDispatchId = id then 1 else 0)) ∧
    (∀ s req now1 now2 s1, observeRequest s req now1 = some s1 →
      (observeRequest s1 req now2).isSome = true ∧
      ((observeRequest s1 req now2).getD s1).orderedRoots =
        s1.orderedRoots ∧
      ∀ k, (((observeRequest s1 req now2).getD s1).getNode
          k).orderedChildren = (s1.getNode k).orderedChildren) := by
  constructor
  · intro evs s h id
    obtain ⟨⟨hnd, _⟩, hmem⟩ :=
      processRequests_aux evs {} s rootsInv_initial h
    have hid := hmem id
    simp only [List.not_mem_nil, false_or] at hid
    split
    · next hex =>
        exact List.count_eq_one_of_mem hnd (hid.mpr hex)
    · next hex =>
        exact List.count_eq_zero.mpr (fun hm => hex (hid.mp hm))
  · intro s req now1 now2 s1 h1
    have hroots1 : (s1.roots.getD []).contains req.rootDispatchId = true :=
      observeRequest_roots_contains h1
    have hocPreserved : ∀ k,
        ((upsertNode (upsertRoot s1 req.rootDispatchId) req
            now2).getNode k).orderedChildren =
          (s1.getNode k).orderedChildren := by
      intro k
      rw [getNode_after_upserts]
      split
      · next heq =>
          rw [(requestNode_fields _ req now2).2.2.2.2.2.2.2.2.2, heq]
      · rfl
    have hchPreserved : ∀ k,
        ((upsertNode (upsertRoot s1 req.rootDispatchId) req
            now2).getNode k).children = (s1.getNode k).children := by
      intro k
      rw [getNode_after_upserts]
      split
      · next heq =>
          rw [(requestNode_fields _ req now2).2.2.2.2.2.2.2.2.1, heq]
      · rfl
    have horoots2 :
        (upsertNode (upsertRoot s1 req.rootDispatchId) req
          now2).orderedRoots = s1.orderedRoots := by
      rw [upsertNode_orderedRoots, upsertRoot_orderedRoots, if_pos hroots1]
    by_cases hp : req.parentDispatchId = ""
    · have h2 : observeRequest s1 req now2 =
          some (upsertNode (upsertRoot s1 req.rootDispatchId) req now2) := by
        unfold observeRequest
        rw [hp, linkParent_empty]
      rw [h2]
      simp only [Option.isSome_some, Option.getD_some]
      exact ⟨trivial, horoots2, hocPreserved⟩
    · obtain ⟨hchild, hcont⟩ := observeRequest_parent_linked hp h1
      have hOr :
          ((upsertNode (upsertRoot s1 req.rootDispatchId) req
              now2).nodes.getD []).contains req.parentDispatchId = true ∨
          req.parentDispatchId = req.rootDispatchId := by
        refine Or.inl ?_
        rw [contains_after_upserts]
        simp [hcont]
      have h2 : observeRequest s1 req now2 =
          some { upsertNode (upsertRoot s1 req.rootDispatchId) req now2 with
                 nodes := some
                   (((upsertNode (upsertRoot s1 req.rootDispatchId) req
                        now2).nodes.getD []).insert req.parentDispatchId
                     (linkedParent
                       (((upsertNode (upsertRoot s1 req.rootDispatchId) req
                           now2).nodes.getD []).get req.parentDispatchId)
                       req.dispatchId)) } := by
        unfold observeRequest
        rw [linkParent_some _ _ _ _ hp hOr]
      rw [h2]
      simp only [Option.isSome_some, Option.getD_some]
      refine ⟨trivial, horoots2, ?_⟩
      intro k
      rw [getNode_link]
      split
      · next heq =>
          rw [getD_get_getNode]
          have hc2 : ((upsertNode (upsertRoot s1 req.rootDispatchId) req
              now2).getNode req.parentDispatchId).children.contains
              req.dispatchId = true := by
            rw [hchPreserved]
            exact hchild
          rw [linkedParent_eq_of_contains _ _ hc2, hocPreserved, heq]
      · exact hocPreserved k

/-- C6 witness: the idempotence theorem applied to a concrete one-request
run and to a concrete re-observation of a parent-child request. -/
theorem observeRequest_idempotent_structure_witness :
    ((processRequests
        [((⟨"r", "", "r", "f", none, none⟩ : RunRequest), 1)]).getD
      {}).orderedRoots.count "r" = 1 ∧
    ((observeRequest
        ((observeRequest {} ⟨"r", "r", "a", "f", none, none⟩ 1).getD {})
        ⟨"r", "r", "a", "f", none, none⟩ 2).getD
      ((observeRequest {} ⟨"r", "r", "a", "f", none, none⟩ 1).getD
        {})).orderedRoots =
      ((observeRequest {} ⟨"r", "r", "a", "f", none, none⟩ 1).getD
        {}).orderedRoots := by
  constructor
  · have h := observeRequest_idempotent_structure.1
      [((⟨"r", "", "r", "f", none, none⟩ : RunRequest), 1)]
      ((processRequests
        [((⟨"r", "", "r", "f", none, none⟩ : RunRequest), 1)]).getD {})
      (by decide) "r"
    rw [h]
    decide
  · have h := observeRequest_idempotent_structure.2 {}
      ⟨"r", "r", "a", "f", none, none⟩ 1 2
      ((observeRequest {} ⟨"r", "r", "a", "f", none, none⟩ 1).getD {})
      (by decide)
    exact h.2.1

/-! Renderer row lemmas -/

theorem judgeNode_fst (now : Time) (n : Node)
    (h : n.done = true ∨ n.expirationTime = 0 ∨ ¬(n.expirationTime < now)) :
    (judgeNode now n).1 = n := by
  unfold judgeNode
  by_cases h1 : n.done = true
  · rw [if_pos h1]
  · rw [if_neg h1]
    have h2 : ¬(n.expirationTime ≠ 0 ∧ n.expirationTime < now) := by
      rcases h with h | h | h
      · exact absurd h h1
      · exact fun hx => hx.1 h
      · exact fun hx => h hx.2
    rw [if_neg h2]

theorem buildRow_eq (sp : String) (now : Time) (n0 : Node)
    (isLast : List Bool) :
    buildRow sp now n0 isLast =
      { spinner := if (judgeNode now n0).2.2 then
          renderStyled .spinnerStyle sp else "",
        attempts := rowAttempts (judgeNode now n0).1,
        elapsed := rowElapsed now (judgeNode now n0).1,
        function := treePfx isLast ++
          (if (judgeNode now n0).1.function ≠ "" then
             renderStyled (judgeNode now n0).2.1 (judgeNode now n0).1.function
           else renderStyled (judgeNode now n0).2.1 "(?)"),
        status := renderStyled
          (rowStatus (judgeNode now n0).1 (judgeNode now n0).2.1
            (judgeNode now n0).2.2).2
          (rowStatus (judgeNode now n0).1 (judgeNode now n0).2.1
            (judgeNode now n0).2.2).1 } := by
  unfold buildRow
  rcases hE : judgeNode now n0 with ⟨a, b, c⟩
  simp

/-- C4 counterexample: for a node with zero failures, one response, status
OK, and running and done both true (a re-requested already-succeeded call),
the additive reading of the spec formula gives two attempts while the
rendered attempts count is one: the running and done-with-success bonuses
are alternatives, not cumulative. -/
theorem attempts_additive_formula_fails :
    specAttempts
      { function := "f", responses := 1, status := 1, running := true,
        done := true } = 2 ∧
    (buildRow "" 0
      { function := "f", responses := 1, status := 1, running := true,
        done := true } []).attempts = 1 ∧
    (2 = 1) = False := by decide

/-- C4 (amended): whenever the local expiration judgment does not fire (the
node is done, or its expirationTime is unset or not yet past now), the
rendered attempts count equals failures plus exactly one bonus, the first
applicable of: running; done-with-success; a non-failure response arrived
(responses exceed failures); clamped to a minimum of one.  In particular a
node with zero failures, not running, and no responses renders attempts 1. -/
theorem rendered_attempts_formula :
    ∀ sp now n isLast,
      (n.done = true ∨ n.expirationTime = 0 ∨ ¬(n.expirationTime < now)) →
      (buildRow sp now n isLast).attempts =
        max (n.failures +
          (if n.running = true then 1
           else if n.done = true ∧ n.status = STATUS_OK then 1
           else if n.responses > n.failures then 1 else 0)) 1 := by
  intro sp now n isLast h
  rw [buildRow_eq]
  simp only []
  rw [judgeNode_fst now n h]
  unfold rowAttempts
  by_cases h1 : n.running = true
  · simp [h1]
  · by_cases h2 : n.done = true ∧ n.status = STATUS_OK
    · simp [h1, h2]
    · by_cases h3 : n.responses > n.failures <;> simp [h1, h2, h3]

/-- C4 witness: the amended theorem applied to the zero node (no failures,
not running, no responses): the rendered attempts floor is 1. -/
theorem rendered_attempts_formula_witness :
    (buildRow "x" 5 ({} : Node) []).attempts = 1 := by
  have h := rendered_attempts_formula "x" 5 {} [] (Or.inr (Or.inl rfl))
  rw [h]
  decide

/-- C5 counterexample: a node meeting the claim's stated conditions
(expiration set and already past, not done, no response received) that is
still marked running renders with status text "Running" in the pending
style, not "Expired". -/
theorem expired_running_node_renders_running :
    ({ function := "f", creationTime := 1, expirationTime := 2,
       running := true } : Node).done = false ∧
    ({ function := "f", creationTime := 1, expirationTime := 2,
       running := true } : Node).responses = 0 ∧
    (buildRow "x" 3
      { function := "f", creationTime := 1, expirationTime := 2,
        running := true } []).status =
      renderStyled .pendingStyle "Running" ∧
    ((buildRow "x" 3
      { function := "f", creationTime := 1, expirationTime := 2,
        running := true } []).status =
      renderStyled .errorStyle "Expired") = False := by decide

/-- C5 (amended): for every node whose creation and expiration times are
set, whose expiration is earlier than the render instant, which is not yet
done, has received no response, and is not currently marked running, the
rendered row is the done/failed display: error-styled function name,
error-styled status text "Expired", no spinner, and elapsed equal to
expirationTime - creationTime truncated to millisecond granularity. -/
theorem expired_node_renders_expired :
    ∀ sp now n isLast,
      n.done = false → n.running = false → n.responses = 0 →
      n.expirationTime ≠ 0 → n.expirationTime < now → n.creationTime ≠ 0 →
      (buildRow sp now n isLast).status =
        renderStyled .errorStyle "Expired" ∧
      (buildRow sp now n isLast).function = treePfx isLast ++
        (if n.function ≠ "" then renderStyled .errorStyle n.function
         else renderStyled .errorStyle "(?)") ∧
      (buildRow sp now n isLast).spinner = "" ∧
      (buildRow sp now n isLast).elapsed =
        truncMs (n.expirationTime - n.creationTime) := by
  intro sp now n isLast hdone hrun hresp hexp0 hlt hct
  have hj : judgeNode now n =
      ({ n with error := some "Expired", done := true,
                doneTime := n.expirationTime }, StyleTag.errorStyle,
        false) := by
    unfold judgeNode
    rw [if_neg (by simp [hdone]), if_pos ⟨hexp0, hlt⟩]
  rw [buildRow_eq, hj]
  refine ⟨?_, ?_, ?_, ?_⟩
  · unfold rowStatus
    simp [hrun]
  · simp
  · simp
  · unfold rowElapsed
    simp [hct]

/-- C5 witness: the amended theorem applied to a concrete non-running
expired node. -/
theorem expired_node_renders_expired_witness :
    (buildRow "x" 5000000
      { function := "f", creationTime := 1000000,
        expirationTime := 3000000 } []).status =
      renderStyled .errorStyle "Expired" ∧
    (buildRow "x" 5000000
      { function := "f", creationTime := 1000000,
        expirationTime := 3000000 } []).elapsed = 2000000 := by
  have h := expired_node_renders_expired "x" 5000000
    { function := "f", creationTime := 1000000, expirationTime := 3000000 }
    [] (by decide) (by decide) (by decide) (by decide) (by decide)
    (by decide)
  refine ⟨h.1, ?_⟩
  rw [h.2.2.2]
  decide

/-! Render read-only theorems -/

theorem buildRowsGo_state (sp : String) (now : Time) :
    ∀ (fuel : Nat) (work : List (DispatchID × List Bool)) (s : TUIState),
      (buildRowsGo sp now fuel s work).1 = s := by
  intro fuel
  induction fuel with
  | zero =>
      intro work s
      cases work <;> rfl
  | succ f ih =>
      intro work s
      cases work with
      | nil => rfl
      | cons hd tl =>
          obtain ⟨id, isLast⟩ := hd
          simp [buildRowsGo, ih]

theorem foldl_fst_invariant {α σ : Type} (f : σ → α → σ) (g : σ → TUIState)
    (hf : ∀ acc a, g (f acc a) = g acc) :
    ∀ (l : List α) (acc : σ), g (l.foldl f acc) = g acc := by
  intro l
  induction l with
  | nil => intro acc; rfl
  | cons a rest ih =>
      intro acc
      rw [List.foldl_cons, ih, hf]

/-- C9: rendering is read-only on the store.  Producing the functions view
(including the locally-expired judgment, whose error/done/doneTime writes
target only the local node copy inside buildRow) returns the store state
unchanged: every stored node, the root registry, and every child list are
those of the input state. -/
theorem functionCallsView_read_only :
    ∀ ticks sp now fuel s,
      (functionCallsView ticks sp now fuel s).1 = s := by
  intro ticks sp now fuel s
  unfold functionCallsView
  split
  · rfl
  · refine foldl_fst_invariant _ (fun acc => acc.1) ?_ s.orderedRoots
      (s, "", true)
    intro acc a
    simp [buildRowsGo_state]

end Dispatch
